import Mathlib

set_option autoImplicit false

namespace Evohome

/-- JSON-like values as handled by the Python client.  Python floats and ints
are distinct types and the voluptuous type validators distinguish them, so
they get separate constructors (`num` is a Python float, `int` a Python int).
Objects are insertion-ordered key-value lists, as Python dicts are. -/
inductive JVal where
  | null : JVal
  | bool : Bool → JVal
  | int : Int → JVal
  | num : Rat → JVal
  | str : String → JVal
  | arr : List JVal → JVal
  | obj : List (String × JVal) → JVal

mutual

/-- All object keys occurring anywhere in a JSON value, in document order. -/
def allKeys : JVal → List String
  | .obj kvs => allKeysEntries kvs
  | .arr vs => allKeysList vs
  | _ => []

/-- Keys of a list of object entries, including keys nested in the values. -/
def allKeysEntries : List (String × JVal) → List String
  | [] => []
  | (k, v) :: rest => k :: (allKeys v ++ allKeysEntries rest)

/-- Keys nested anywhere in a list of JSON values. -/
def allKeysList : List JVal → List String
  | [] => []
  | v :: rest => allKeys v ++ allKeysList rest

end

/-- Validation of a voluptuous dict schema with extra=PREVENT_EXTRA: every
entry of the data dict must match some schema key (its value validated by the
corresponding value validator; an unmatched key is an extra-key failure), and
every required key must be present. -/
def checkDict (rules : List (String × (JVal → Bool))) (required : List String)
    (kvs : List (String × JVal)) : Bool :=
  kvs.all (fun kv =>
    match rules.find? (fun r => r.1 == kv.1) with
    | some r => r.2 kv.2
    | none => false) &&
  required.all (fun k => kvs.any (fun kv => kv.1 == k))

/-- One or two leading decimal digits, greedily, as strptime numeric
directives consume them; returns the value and the unconsumed input. -/
def takeNum2 : List Char → Option (Nat × List Char)
  | c1 :: c2 :: rest =>
    if c1.isDigit then
      if c2.isDigit then some (10 * (c1.toNat - 48) + (c2.toNat - 48), rest)
      else some (c1.toNat - 48, c2 :: rest)
    else none
  | [c1] => if c1.isDigit then some (c1.toNat - 48, []) else none
  | [] => none

/-- vol.Datetime with format "%H:%M:00": the string must parse per strptime
as an hour (0..23), a literal colon, a minute (0..59), and the literal
suffix ":00". -/
def isTimeHHMM00 (s : String) : Bool :=
  match takeNum2 s.data with
  | some (h, ':' :: rest) =>
    (match takeNum2 rest with
     | some (m, rest2) => decide (h ≤ 23) && decide (m ≤ 59) && rest2 == [':', '0', '0']
     | none => false)
  | _ => false

/-- Modelled from the spec: the GET schedule key constants of
schema/const.py, which is not under src/; the spec lists the GET keys as
lower-camel-case dailySchedules, dayOfWeek, switchpoints, timeOfDay,
heatSetpoint, dhwState. -/
def szDailySchedules : String := "dailySchedules"

/-- Modelled from the spec: see szDailySchedules. -/
def szDayOfWeek : String := "dayOfWeek"

/-- Modelled from the spec: see szDailySchedules. -/
def szSwitchpoints : String := "switchpoints"

/-- Modelled from the spec: see szDailySchedules. -/
def szTimeOfDay : String := "timeOfDay"

/-- Modelled from the spec: see szDailySchedules. -/
def szHeatSetpoint : String := "heatSetpoint"

/-- Modelled from the spec: see szDailySchedules. -/
def szDhwState : String := "dhwState"

/-- Modelled from the spec: the DHW state strings SZ_ON and SZ_OFF of
schema/const.py (not under src/). -/
def szOn : String := "On"

/-- Modelled from the spec: see szOn. -/
def szOff : String := "Off"

/-- Modelled from the spec: the seven day names SZ_MONDAY .. SZ_SUNDAY of
schema/const.py (not under src/). -/
def daysOfWeek : List String :=
  ["Monday", "Tuesday", "Wednesday", "Thursday", "Friday", "Saturday", "Sunday"]

/-- Python str.capitalize, as applied to the key constants in the PUT
schedule schemas: first character upper-cased, all remaining characters
lower-cased. -/
def pyCapitalize (s : String) : String :=
  match s.data with
  | [] => ""
  | c :: cs => String.mk (c.toUpper :: cs.map Char.toLower)

/-- Value validator vol.All(float, vol.Range(min=5, max=35)): a Python
float within the inclusive range. -/
def isSetpointVal : JVal → Bool
  | .num q => decide (5 ≤ q) && decide (q ≤ 35)
  | _ => false

/-- Value validator vol.Datetime(format="%H:%M:00"): a string of that shape. -/
def isTimeVal : JVal → Bool
  | .str t => isTimeHHMM00 t
  | _ => false

/-- Value validator vol.Any(SZ_ON, SZ_OFF). -/
def isDhwStateVal : JVal → Bool
  | .str s => s == szOn || s == szOff
  | _ => false

/-- Value validator vol.Any(list(DAYS_OF_WEEK)) of the GET day-of-week
schemas: a voluptuous list schema, so the value must be a list each of whose
elements is one of the seven day names. -/
def isDayNameList : JVal → Bool
  | .arr vs => vs.all (fun v => match v with
      | .str s => daysOfWeek.contains s
      | _ => false)
  | _ => false

/-- Value validator vol.Any(vol.All(int, vol.Range(min=0, max=6))) of the
PUT day-of-week schemas: an int with 0 being Monday. -/
def isDayIndexVal : JVal → Bool
  | .int n => decide (0 ≤ n) && decide (n ≤ 6)
  | _ => false

/-- A voluptuous list schema [p]: the value is a list whose elements all
validate against p. -/
def isListOf (p : JVal → Bool) : JVal → Bool
  | .arr vs => vs.all p
  | _ => false

/-- SCH_GET_SWITCHPOINT_DHW. -/
def sch_get_switchpoint_dhw : JVal → Bool
  | .obj kvs => checkDict
      [(szDhwState, isDhwStateVal), (szTimeOfDay, isTimeVal)]
      [szDhwState, szTimeOfDay] kvs
  | _ => false

/-- SCH_GET_SWITCHPOINT_ZONE. -/
def sch_get_switchpoint_zone : JVal → Bool
  | .obj kvs => checkDict
      [(szHeatSetpoint, isSetpointVal), (szTimeOfDay, isTimeVal)]
      [szHeatSetpoint, szTimeOfDay] kvs
  | _ => false

/-- SCH_GET_DAY_OF_WEEK_DHW. -/
def sch_get_day_of_week_dhw : JVal → Bool
  | .obj kvs => checkDict
      [(szDayOfWeek, isDayNameList), (szSwitchpoints, isListOf sch_get_switchpoint_dhw)]
      [szDayOfWeek, szSwitchpoints] kvs
  | _ => false

/-- SCH_GET_DAY_OF_WEEK_ZONE. -/
def sch_get_day_of_week_zone : JVal → Bool
  | .obj kvs => checkDict
      [(szDayOfWeek, isDayNameList), (szSwitchpoints, isListOf sch_get_switchpoint_zone)]
      [szDayOfWeek, szSwitchpoints] kvs
  | _ => false

/-- SCH_GET_SCHEDULE_DHW. -/
def sch_get_schedule_dhw : JVal → Bool
  | .obj kvs => checkDict
      [(szDailySchedules, isListOf sch_get_day_of_week_dhw)]
      [szDailySchedules] kvs
  | _ => false

/-- SCH_GET_SCHEDULE_ZONE. -/
def sch_get_schedule_zone : JVal → Bool
  | .obj kvs => checkDict
      [(szDailySchedules, isListOf sch_get_day_of_week_zone)]
      [szDailySchedules] kvs
  | _ => false

/-- SCH_GET_SCHEDULE = vol.Any(SCH_GET_SCHEDULE_DHW, SCH_GET_SCHEDULE_ZONE). -/
def sch_get_schedule (v : JVal) : Bool :=
  sch_get_schedule_dhw v || sch_get_schedule_zone v

/-- SCH_PUT_SWITCHPOINT_DHW: keys are the capitalize() transforms of the
GET keys. -/
def sch_put_switchpoint_dhw : JVal → Bool
  | .obj kvs => checkDict
      [(pyCapitalize szDhwState, isDhwStateVal), (pyCapitalize szTimeOfDay, isTimeVal)]
      [pyCapitalize szDhwState, pyCapitalize szTimeOfDay] kvs
  | _ => false

/-- SCH_PUT_SWITCHPOINT_ZONE: per the source note, SZ_HEAT_SETPOINT is not
capitalized here, while SZ_TIME_OF_DAY is. -/
def sch_put_switchpoint_zone : JVal → Bool
  | .obj kvs => checkDict
      [(szHeatSetpoint, isSetpointVal), (pyCapitalize szTimeOfDay, isTimeVal)]
      [szHeatSetpoint, pyCapitalize szTimeOfDay] kvs
  | _ => false

/-- SCH_PUT_DAY_OF_WEEK_DHW: day of week is an int, 0 is Monday. -/
def sch_put_day_of_week_dhw : JVal → Bool
  | .obj kvs => checkDict
      [(pyCapitalize szDayOfWeek, isDayIndexVal),
       (pyCapitalize szSwitchpoints, isListOf sch_put_switchpoint_dhw)]
      [pyCapitalize szDayOfWeek, pyCapitalize szSwitchpoints] kvs
  | _ => false

/-- SCH_PUT_DAY_OF_WEEK_ZONE. -/
def sch_put_day_of_week_zone : JVal → Bool
  | .obj kvs => checkDict
      [(pyCapitalize szDayOfWeek, isDayIndexVal),
       (pyCapitalize szSwitchpoints, isListOf sch_put_switchpoint_zone)]
      [pyCapitalize szDayOfWeek, pyCapitalize szSwitchpoints] kvs
  | _ => false

/-- SCH_PUT_SCHEDULE_DHW. -/
def sch_put_schedule_dhw : JVal → Bool
  | .obj kvs => checkDict
      [(pyCapitalize szDailySchedules, isListOf sch_put_day_of_week_dhw)]
      [pyCapitalize szDailySchedules] kvs
  | _ => false

/-- SCH_PUT_SCHEDULE_ZONE. -/
def sch_put_schedule_zone : JVal → Bool
  | .obj kvs => checkDict
      [(pyCapitalize szDailySchedules, isListOf sch_put_day_of_week_zone)]
      [pyCapitalize szDailySchedules] kvs
  | _ => false

/-- SCH_PUT_SCHEDULE = vol.Any(SCH_PUT_SCHEDULE_DHW, SCH_PUT_SCHEDULE_ZONE). -/
def sch_put_schedule (v : JVal) : Bool :=
  sch_put_schedule_dhw v || sch_put_schedule_zone v

/-- The six GET schedule keys. -/
def getScheduleKeys : List String :=
  [szDailySchedules, szDayOfWeek, szSwitchpoints, szTimeOfDay, szHeatSetpoint, szDhwState]

/-- The keys as the PUT schemas actually spell them: the Python capitalize()
transforms of the GET keys, except heatSetpoint which is left untouched. -/
def putScheduleKeys : List String :=
  ["Dailyschedules", "Dayofweek", "Switchpoints", "Timeofday", "heatSetpoint", "Dhwstate"]

/-- Modelled from the spec: the capability key constants of schema/const.py
(not under src/), lower-camel-case like every other GET-side key. -/
def szSystemMode : String := "systemMode"

/-- Modelled from the spec: see szSystemMode. -/
def szCanBePermanent : String := "canBePermanent"

/-- Modelled from the spec: see szSystemMode. -/
def szCanBeTemporary : String := "canBeTemporary"

/-- Modelled from the spec: see szSystemMode. -/
def szMaxDuration : String := "maxDuration"

/-- Modelled from the spec: see szSystemMode. -/
def szTimingResolution : String := "timingResolution"

/-- Modelled from the spec: see szSystemMode. -/
def szTimingMode : String := "timingMode"

/-- SCH_SYSTEM_MODE_PERM: a permanent-only system mode capability entry. -/
def sch_system_mode_perm : JVal → Bool
  | .obj kvs => checkDict
      [(szSystemMode, fun v => match v with
          | .str s => s == "Auto" || s == "AutoWithReset" || s == "HeatingOff"
          | _ => false),
       (szCanBePermanent, fun v => match v with | .bool b => b | _ => false),
       (szCanBeTemporary, fun v => match v with | .bool b => !b | _ => false)]
      [szSystemMode, szCanBePermanent, szCanBeTemporary] kvs
  | _ => false

/-- SCH_SYSTEM_MODE_TEMP: a permanent-or-temporary system mode capability
entry, carrying a max duration, a timing resolution and a timing mode of
Duration or Period. -/
def sch_system_mode_temp : JVal → Bool
  | .obj kvs => checkDict
      [(szSystemMode, fun v => match v with
          | .str s => s == "AutoWithEco" || s == "Away" || s == "Custom" || s == "DayOff"
          | _ => false),
       (szCanBePermanent, fun v => match v with | .bool b => b | _ => false),
       (szCanBeTemporary, fun v => match v with | .bool b => b | _ => false),
       (szMaxDuration, fun v => match v with | .str _ => true | _ => false),
       (szTimingResolution, fun v => match v with | .str _ => true | _ => false),
       (szTimingMode, fun v => match v with
          | .str s => s == "Duration" || s == "Period"
          | _ => false)]
      [szSystemMode, szCanBePermanent, szCanBeTemporary,
       szMaxDuration, szTimingResolution, szTimingMode] kvs
  | _ => false

/-- SCH_ALLOWED_SYSTEM_MODE = vol.Any(SCH_SYSTEM_MODE_PERM, SCH_SYSTEM_MODE_TEMP). -/
def sch_allowed_system_mode (v : JVal) : Bool :=
  sch_system_mode_perm v || sch_system_mode_temp v

/-- Whether a JSON object carries the given key at top level. -/
def hasKey (v : JVal) (k : String) : Bool :=
  match v with
  | .obj kvs => kvs.any (fun kv => kv.1 == k)
  | _ => false

/-- The most recently fetched temperature status of a zone or DHW unit.
Modelled from the spec: zone.py and hotwater.py are not under src/; the
spec gives a zone a nullable current temperature, reported through an
availability flag, and a hot-water unit a current temperature. -/
structure TemperatureStatus where
  isAvailable : Bool
  temperature : Rat
  deriving DecidableEq, Repr

/-- The most recently fetched setpoint status of a zone.  Modelled from the
spec: zone.py is not under src/; the spec gives each zone a target
setpoint. -/
structure SetpointStatus where
  targetHeatTemperature : Rat
  deriving DecidableEq, Repr

/-- A heating zone as built by Zone(client, zone_config) and refreshed from
a status payload.  Modelled from the spec: zone.py is not under src/; the
spec lists identifier, name, current temperature (nullable via the
availability flag) and target setpoint. -/
structure Zone where
  zoneId : String
  name : String
  temperatureStatus : TemperatureStatus
  setpointStatus : SetpointStatus
  deriving DecidableEq, Repr

/-- A domestic hot-water unit as built by HotWater(client, dhw_config).
Modelled from the spec: hotwater.py is not under src/; the spec gives it an
identifier and a current temperature. -/
structure HotWater where
  dhwId : String
  temperatureStatus : TemperatureStatus
  deriving DecidableEq, Repr

/-- Modelled from the spec: the identifier a HotWater unit answers to in
schedule backup and restore (hotwater.py is not under src/); the backup
document is keyed by entity identifier. -/
def HotWater.zoneId (hw : HotWater) : String :=
  hw.dhwId

/-- The part of a temperatureControlSystem config payload that
ControlSystem.__init__ consumes: the top-level system identifier (absent
keys modelled as none), the zones list, and the optional dhw block. -/
structure TcsConfig where
  systemId : Option String
  zones : List Zone
  dhw : Option HotWater
  deriving DecidableEq, Repr

/-- Failures surfaced by the entity graph. -/
inductive EvoError where
  | configError
  | lookupError (zid : String)
  deriving DecidableEq, Repr

/-- A Temperature Control System: ordered zone list plus the name and
identifier indexes and the optional hot-water unit. -/
structure ControlSystem where
  systemId : String
  _zones : List Zone
  zones : List (String × Zone)
  zones_by_id : List (String × Zone)
  hotwater : Option HotWater
  deriving DecidableEq, Repr

/-- Python dict item assignment d[k] = v on an insertion-ordered dict: an
existing key keeps its position and gets the new value, a new key is
appended. -/
def dictInsert {α : Type} (d : List (String × α)) (k : String) (v : α) :
    List (String × α) :=
  if d.any (fun kv => kv.1 == k) then
    d.map (fun kv => if kv.1 == k then (k, v) else kv)
  else d ++ [(k, v)]

/-- The zone loop of ControlSystem.__init__: append each zone to the
ordered list and index it by name and by identifier. -/
def insertZones (zs : List Zone)
    (acc : List Zone × List (String × Zone) × List (String × Zone)) :
    List Zone × List (String × Zone) × List (String × Zone) :=
  match zs with
  | [] => acc
  | z :: rest =>
      insertZones rest
        (acc.1 ++ [z], dictInsert acc.2.1 z.name z, dictInsert acc.2.2 z.zoneId z)

/-- ControlSystem.__init__: fails when the top-level system identifier is
absent (attribute access fails) or empty (the assert on a falsy value
fails); otherwise builds the zone list, both indexes, and the optional
hot-water unit.  On failure no ControlSystem is produced. -/
def mkControlSystem (config : TcsConfig) : Except EvoError ControlSystem :=
  match config.systemId with
  | none => .error .configError
  | some sid =>
    if sid = "" then .error .configError
    else
      .ok { systemId := sid,
            _zones := (insertZones config.zones ([], [], [])).1,
            zones := (insertZones config.zones ([], [], [])).2.1,
            zones_by_id := (insertZones config.zones ([], [], [])).2.2,
            hotwater := config.dhw }

/-- A concrete two-zone config for exercising construction. -/
def exTwoZoneConfig : TcsConfig :=
  { systemId := some "3432522",
    zones := [⟨"3432576", "Lounge", ⟨true, 17⟩, ⟨21⟩⟩,
              ⟨"3432577", "Bedroom", ⟨false, 18⟩, ⟨16⟩⟩],
    dhw := none }

/-- The ControlSystem that construction yields on exTwoZoneConfig. -/
def exTwoZoneSystem : ControlSystem :=
  { systemId := "3432522",
    _zones := [⟨"3432576", "Lounge", ⟨true, 17⟩, ⟨21⟩⟩,
               ⟨"3432577", "Bedroom", ⟨false, 18⟩, ⟨16⟩⟩],
    zones := [("Lounge", ⟨"3432576", "Lounge", ⟨true, 17⟩, ⟨21⟩⟩),
              ("Bedroom", ⟨"3432577", "Bedroom", ⟨false, 18⟩, ⟨16⟩⟩)],
    zones_by_id := [("3432576", ⟨"3432576", "Lounge", ⟨true, 17⟩, ⟨21⟩⟩),
                    ("3432577", ⟨"3432577", "Bedroom", ⟨false, 18⟩, ⟨16⟩⟩)],
    hotwater := none }

/-- A Python datetime value, to the fields the strftime formats used here
consume. -/
structure PyDateTime where
  year : Nat
  month : Nat
  day : Nat
  hour : Nat
  minute : Nat
  second : Nat
  deriving DecidableEq, Repr

/-- Zero-padding to two digits, as the %m %d %H %M %S directives do. -/
def pad2 (n : Nat) : String :=
  if n < 10 then "0" ++ toString n else toString n

/-- Zero-padding to four digits, as the %Y directive does. -/
def pad4 (n : Nat) : String :=
  if n < 10 then "000" ++ toString n
  else if n < 100 then "00" ++ toString n
  else if n < 1000 then "0" ++ toString n
  else toString n

/-- strftime "%Y-%m-%d". -/
def strftime_date (d : PyDateTime) : String :=
  pad4 d.year ++ "-" ++ pad2 d.month ++ "-" ++ pad2 d.day

/-- strftime "%Y-%m-%dT%H:%M:%SZ". -/
def strftime_full (d : PyDateTime) : String :=
  strftime_date d ++ "T" ++ pad2 d.hour ++ ":" ++ pad2 d.minute ++ ":" ++
    pad2 d.second ++ "Z"

/-- Modelled from the spec: API_STRFTIME, the fixed API timestamp format of
the newer client (its const.py is not under src/); the spec gives the
mode-change TimeUntil as an ISO-8601 string. -/
def apiStrftime (d : PyDateTime) : String :=
  strftime_full d

/-- The request body built by ControlSystem._set_status of the newer
client: SystemMode, TimeUntil and Permanent. -/
def set_status_data (mode : String) (untilTime : Option PyDateTime) : JVal :=
  match untilTime with
  | none =>
      .obj [("SystemMode", .str mode), ("TimeUntil", .null), ("Permanent", .bool true)]
  | some u =>
      .obj [("SystemMode", .str mode), ("TimeUntil", .str (apiStrftime u)),
            ("Permanent", .bool false)]

/-- set_status delegates to _set_status unchanged. -/
def set_status_data_generic (mode : String) (untilTime : Option PyDateTime) : JVal :=
  set_status_data mode untilTime

/-- set_status_normal: _set_status("Auto") with no until time. -/
def set_status_normal_data : JVal :=
  set_status_data "Auto" none

/-- set_status_reset: _set_status("AutoWithReset") with no until time. -/
def set_status_reset_data : JVal :=
  set_status_data "AutoWithReset" none

/-- set_status_custom. -/
def set_status_custom_data (untilTime : Option PyDateTime) : JVal :=
  set_status_data "Custom" untilTime

/-- set_status_eco. -/
def set_status_eco_data (untilTime : Option PyDateTime) : JVal :=
  set_status_data "AutoWithEco" untilTime

/-- set_status_away. -/
def set_status_away_data (untilTime : Option PyDateTime) : JVal :=
  set_status_data "Away" untilTime

/-- set_status_dayoff. -/
def set_status_dayoff_data (untilTime : Option PyDateTime) : JVal :=
  set_status_data "DayOff" untilTime

/-- set_status_heatingoff. -/
def set_status_heatingoff_data (untilTime : Option PyDateTime) : JVal :=
  set_status_data "HeatingOff" untilTime

/-- A row of the report built by ControlSystem.temperatures of the newer
client: the thermostat kind tag, identifier, name, nullable temp, and the
setpoint, which is the empty string for hot water and a number for a zone. -/
structure TempEntry where
  thermostat : String
  id : String
  name : String
  temp : Option Rat
  setpoint : JVal

/-- The zone_status dict built in the loop of temperatures: temp starts as
None and is overwritten only when the zone reports available. -/
def zoneTempEntry (zone : Zone) : TempEntry :=
  let zone_status : TempEntry :=
    { thermostat := "EMEA_ZONE", id := zone.zoneId, name := zone.name,
      temp := none,
      setpoint := .num zone.setpointStatus.targetHeatTemperature }
  if zone.temperatureStatus.isAvailable then
    { zone_status with temp := some zone.temperatureStatus.temperature }
  else zone_status

/-- ControlSystem.temperatures, aggregating over the state produced by the
status refresh it performs first: the DHW entry, when a hot-water unit is
present, followed by one entry per zone in construction order. -/
def temperatures (cs : ControlSystem) : List TempEntry :=
  (match cs.hotwater with
   | some hw =>
       [{ thermostat := "DOMESTIC_HOT_WATER", id := hw.dhwId, name := "",
          temp := some hw.temperatureStatus.temperature, setpoint := .str "" }]
   | none => []) ++ cs._zones.map zoneTempEntry

/-- One entry of a schedule backup document: entity identifier, display
name, and the schedule document to submit. -/
structure RestoreEntry where
  zid : String
  name : String
  schedule : JVal

/-- The per-entry dispatch of zone_schedules_restore: the hot-water branch
is taken when a hot-water unit exists and its identifier matches, else the
identifier is looked up in zones_by_id, and a miss raises. -/
def matchesEntity (cs : ControlSystem) (zid : String) : Bool :=
  (match cs.hotwater with
   | some hw => hw.zoneId == zid
   | none => false) ||
  cs.zones_by_id.any (fun kv => kv.1 == zid)

/-- ControlSystem.zone_schedules_restore over the parsed backup entries in
document order: returns the identifier and schedule of each set_schedule
call actually submitted, and the lookup error, if any, that aborted the
loop. -/
def zone_schedules_restore (cs : ControlSystem) :
    List RestoreEntry → List (String × JVal) × Option EvoError
  | [] => ([], none)
  | e :: rest =>
    if (match cs.hotwater with
        | some hw => hw.zoneId == e.zid
        | none => false) then
      ((e.zid, e.schedule) :: (zone_schedules_restore cs rest).1,
       (zone_schedules_restore cs rest).2)
    else if cs.zones_by_id.any (fun kv => kv.1 == e.zid) then
      ((e.zid, e.schedule) :: (zone_schedules_restore cs rest).1,
       (zone_schedules_restore cs rest).2)
    else ([], some (.lookupError e.zid))

/-- One response of the legacy task-status endpoint: either the task state
string from a 2xx response, or a transport-level error raised by
raise_for_status. -/
inductive PollResponse where
  | state (s : String)
  | transportError
  deriving DecidableEq, Repr

/-- How the polling loop stopped. -/
inductive PollOutcome where
  | succeeded
  | transportFailure
  deriving DecidableEq, Repr

/-- The polling loop shared by the legacy mutating writes: check the task
state; stop when it is Succeeded or the check raises; otherwise sleep one
second and check again.  The loop has no retry cap, so it is modelled with
explicit fuel: none means the loop was still running after that many
checks.  On some (n, outcome), n is both the index of the final check and
the number of one-second sleeps performed before it. -/
def pollLoop (resp : Nat → PollResponse) (i fuel : Nat) :
    Option (Nat × PollOutcome) :=
  match fuel with
  | 0 => none
  | fuel' + 1 =>
    match resp i with
    | .transportError => some (i, .transportFailure)
    | .state s =>
        if s = "Succeeded" then some (i, .succeeded)
        else pollLoop resp (i + 1) fuel'

/-- The body of the legacy EvohomeClient._set_status PUT: QuickAction and
QuickActionNextTime, the latter formatted from the until date only, with
the time of day hard-coded to midnight. -/
structure QuickActionData where
  quickAction : String
  quickActionNextTime : Option String
  deriving DecidableEq, Repr

/-- EvohomeClient._set_status request body. -/
def legacy_set_status_data (status : String) (untilTime : Option PyDateTime) :
    QuickActionData :=
  match untilTime with
  | none => { quickAction := status, quickActionNextTime := none }
  | some u =>
      { quickAction := status,
        quickActionNextTime := some (strftime_date u ++ "T00:00:00Z") }

/-- The body of the legacy heat-setpoint PUT: Value, Status and NextTime. -/
structure HeatSetpointData where
  value : Option Rat
  status : String
  nextTime : Option String
  deriving DecidableEq, Repr

/-- EvohomeClient.set_temperature request body: Hold indefinitely, or
Temporary with the full until timestamp. -/
def set_temperature_data (temperature : Rat) (untilTime : Option PyDateTime) :
    HeatSetpointData :=
  match untilTime with
  | none => { value := some temperature, status := "Hold", nextTime := none }
  | some u =>
      { value := some temperature, status := "Temporary",
        nextTime := some (strftime_full u) }

/-- EvohomeClient.cancel_temp_override request body. -/
def cancel_temp_override_data : HeatSetpointData :=
  { value := none, status := "Scheduled", nextTime := none }

/-- The time_until string of EvohomeClient.set_dhw_on and set_dhw_off: the
full until timestamp. -/
def dhw_next_time (untilTime : Option PyDateTime) : Option String :=
  untilTime.map strftime_full

theorem mem_allKeysList {k : String} {vs : List JVal} :
    k ∈ allKeysList vs ↔ ∃ w ∈ vs, k ∈ allKeys w := by
  induction vs with
  | nil => simp [allKeysList]
  | cons v rest ih => simp [allKeysList, List.mem_append, ih]

theorem keys_in_of_allKeys_nil {S : List String} {v : JVal} (h : allKeys v = []) :
    ∀ k ∈ allKeys v, k ∈ S := by
  simp [h]

theorem allKeys_isSetpointVal {v : JVal} (h : isSetpointVal v = true) : allKeys v = [] := by
  cases v <;> simp_all [isSetpointVal, allKeys]

theorem allKeys_isTimeVal {v : JVal} (h : isTimeVal v = true) : allKeys v = [] := by
  cases v <;> simp_all [isTimeVal, allKeys]

theorem allKeys_isDhwStateVal {v : JVal} (h : isDhwStateVal v = true) : allKeys v = [] := by
  cases v <;> simp_all [isDhwStateVal, allKeys]

theorem allKeys_isDayIndexVal {v : JVal} (h : isDayIndexVal v = true) : allKeys v = [] := by
  cases v <;> simp_all [isDayIndexVal, allKeys]

theorem allKeysList_eq_nil {vs : List JVal} (h : ∀ v ∈ vs, allKeys v = []) :
    allKeysList vs = [] := by
  induction vs with
  | nil => rfl
  | cons v rest ih =>
    simp [allKeysList, h v (by simp), ih (fun w hw => h w (by simp [hw]))]

theorem allKeys_isDayNameList {v : JVal} (h : isDayNameList v = true) : allKeys v = [] := by
  cases v <;> simp_all [isDayNameList, allKeys]
  case arr vs =>
    apply allKeysList_eq_nil
    intro w hw
    have := h w hw
    cases w <;> simp_all [allKeys]

theorem allKeys_isListOf {p : JVal → Bool} {S : List String}
    (hp : ∀ v, p v = true → ∀ k ∈ allKeys v, k ∈ S) :
    ∀ v, isListOf p v = true → ∀ k ∈ allKeys v, k ∈ S := by
  intro v hv k hk
  cases v <;> simp_all [isListOf, allKeys]
  case arr vs =>
    obtain ⟨w, hwmem, hkw⟩ := mem_allKeysList.mp hk
    exact hp w (hv w hwmem) k hkw

theorem checkDict_entries_keys (rules : List (String × (JVal → Bool))) (S : List String)
    (hkeys : ∀ r ∈ rules, r.1 ∈ S)
    (hvals : ∀ r ∈ rules, ∀ v, r.2 v = true → ∀ k ∈ allKeys v, k ∈ S) :
    ∀ kvs : List (String × JVal),
      kvs.all (fun kv =>
        match rules.find? (fun r => r.1 == kv.1) with
        | some r => r.2 kv.2
        | none => false) = true →
      ∀ k ∈ allKeysEntries kvs, k ∈ S := by
  intro kvs
  induction kvs with
  | nil => intro _ k hk; simp [allKeysEntries] at hk
  | cons kv rest ih =>
    intro hall k hk
    rw [List.all_cons, Bool.and_eq_true] at hall
    obtain ⟨hhead, hrest⟩ := hall
    cases hfind : rules.find? (fun r => r.1 == kv.1) with
    | none => rw [hfind] at hhead; exact absurd hhead (by simp)
    | some r =>
      rw [hfind] at hhead
      have hrmem : r ∈ rules := List.mem_of_find?_eq_some hfind
      have hrkey : r.1 = kv.1 := by
        have := List.find?_some hfind
        exact eq_of_beq this
      simp only [allKeysEntries, List.mem_cons, List.mem_append] at hk
      rcases hk with hk | hk | hk
      · subst hk
        exact hrkey ▸ hkeys r hrmem
      · exact hvals r hrmem kv.2 hhead k hk
      · exact ih hrest k hk

theorem checkDict_obj_keys {rules : List (String × (JVal → Bool))}
    {required : List String} (S : List String)
    (hkeys : ∀ r ∈ rules, r.1 ∈ S)
    (hvals : ∀ r ∈ rules, ∀ v, r.2 v = true → ∀ k ∈ allKeys v, k ∈ S)
    {kvs : List (String × JVal)} (h : checkDict rules required kvs = true) :
    ∀ k ∈ allKeys (JVal.obj kvs), k ∈ S := by
  rw [checkDict, Bool.and_eq_true] at h
  exact checkDict_entries_keys rules S hkeys hvals kvs h.1

theorem sch_get_switchpoint_dhw_keys :
    ∀ v, sch_get_switchpoint_dhw v = true → ∀ k ∈ allKeys v, k ∈ getScheduleKeys := by
  intro v hv
  cases v <;> simp_all [sch_get_switchpoint_dhw]
  case obj kvs =>
    refine checkDict_obj_keys getScheduleKeys ?_ ?_ hv
    · intro r hr
      rcases List.mem_cons.mp hr with h | h
      · subst h; decide
      · rcases List.mem_singleton.mp h with rfl; decide
    · intro r hr w hw
      rcases List.mem_cons.mp hr with h | h
      · subst h; exact keys_in_of_allKeys_nil (allKeys_isDhwStateVal hw)
      · rcases List.mem_singleton.mp h with rfl
        exact keys_in_of_allKeys_nil (allKeys_isTimeVal hw)

theorem sch_get_switchpoint_zone_keys :
    ∀ v, sch_get_switchpoint_zone v = true → ∀ k ∈ allKeys v, k ∈ getScheduleKeys := by
  intro v hv
  cases v <;> simp_all [sch_get_switchpoint_zone]
  case obj kvs =>
    refine checkDict_obj_keys getScheduleKeys ?_ ?_ hv
    · intro r hr
      rcases List.mem_cons.mp hr with h | h
      · subst h; decide
      · rcases List.mem_singleton.mp h with rfl; decide
    · intro r hr w hw
      rcases List.mem_cons.mp hr with h | h
      · subst h; exact keys_in_of_allKeys_nil (allKeys_isSetpointVal hw)
      · rcases List.mem_singleton.mp h with rfl
        exact keys_in_of_allKeys_nil (allKeys_isTimeVal hw)

theorem sch_get_day_of_week_dhw_keys :
    ∀ v, sch_get_day_of_week_dhw v = true → ∀ k ∈ allKeys v, k ∈ getScheduleKeys := by
  intro v hv
  cases v <;> simp_all [sch_get_day_of_week_dhw]
  case obj kvs =>
    refine checkDict_obj_keys getScheduleKeys ?_ ?_ hv
    · intro r hr
      rcases List.mem_cons.mp hr with h | h
      · subst h; decide
      · rcases List.mem_singleton.mp h with rfl; decide
    · intro r hr w hw
      rcases List.mem_cons.mp hr with h | h
      · subst h; exact keys_in_of_allKeys_nil (allKeys_isDayNameList hw)
      · rcases List.mem_singleton.mp h with rfl
        exact allKeys_isListOf sch_get_switchpoint_dhw_keys w hw

theorem sch_get_day_of_week_zone_keys :
    ∀ v, sch_get_day_of_week_zone v = true → ∀ k ∈ allKeys v, k ∈ getScheduleKeys := by
  intro v hv
  cases v <;> simp_all [sch_get_day_of_week_zone]
  case obj kvs =>
    refine checkDict_obj_keys getScheduleKeys ?_ ?_ hv
    · intro r hr
      rcases List.mem_cons.mp hr with h | h
      · subst h; decide
      · rcases List.mem_singleton.mp h with rfl; decide
    · intro r hr w hw
      rcases List.mem_cons.mp hr with h | h
      · subst h; exact keys_in_of_allKeys_nil (allKeys_isDayNameList hw)
      · rcases List.mem_singleton.mp h with rfl
        exact allKeys_isListOf sch_get_switchpoint_zone_keys w hw

theorem sch_get_schedule_keys :
    ∀ v, sch_get_schedule v = true → ∀ k ∈ allKeys v, k ∈ getScheduleKeys := by
  intro v hv
  rw [sch_get_schedule, Bool.or_eq_true] at hv
  rcases hv with hv | hv <;> cases v <;> simp_all [sch_get_schedule_dhw, sch_get_schedule_zone]
  case inl.obj kvs =>
    refine checkDict_obj_keys getScheduleKeys ?_ ?_ hv
    · intro r hr
      rcases List.mem_singleton.mp hr with rfl; decide
    · intro r hr w hw
      rcases List.mem_singleton.mp hr with rfl
      exact allKeys_isListOf sch_get_day_of_week_dhw_keys w hw
  case inr.obj kvs =>
    refine checkDict_obj_keys getScheduleKeys ?_ ?_ hv
    · intro r hr
      rcases List.mem_singleton.mp hr with rfl; decide
    · intro r hr w hw
      rcases List.mem_singleton.mp hr with rfl
      exact allKeys_isListOf sch_get_day_of_week_zone_keys w hw

theorem sch_put_switchpoint_dhw_keys :
    ∀ v, sch_put_switchpoint_dhw v = true → ∀ k ∈ allKeys v, k ∈ putScheduleKeys := by
  intro v hv
  cases v <;> simp_all [sch_put_switchpoint_dhw]
  case obj kvs =>
    refine checkDict_obj_keys putScheduleKeys ?_ ?_ hv
    · intro r hr
      rcases List.mem_cons.mp hr with h | h
      · subst h; decide
      · rcases List.mem_singleton.mp h with rfl; decide
    · intro r hr w hw
      rcases List.mem_cons.mp hr with h | h
      · subst h; exact keys_in_of_allKeys_nil (allKeys_isDhwStateVal hw)
      · rcases List.mem_singleton.mp h with rfl
        exact keys_in_of_allKeys_nil (allKeys_isTimeVal hw)

theorem sch_put_switchpoint_zone_keys :
    ∀ v, sch_put_switchpoint_zone v = true → ∀ k ∈ allKeys v, k ∈ putScheduleKeys := by
  intro v hv
  cases v <;> simp_all [sch_put_switchpoint_zone]
  case obj kvs =>
    refine checkDict_obj_keys putScheduleKeys ?_ ?_ hv
    · intro r hr
      rcases List.mem_cons.mp hr with h | h
      · subst h; decide
      · rcases List.mem_singleton.mp h with rfl; decide
    · intro r hr w hw
      rcases List.mem_cons.mp hr with h | h
      · subst h; exact keys_in_of_allKeys_nil (allKeys_isSetpointVal hw)
      · rcases List.mem_singleton.mp h with rfl
        exact keys_in_of_allKeys_nil (allKeys_isTimeVal hw)

theorem sch_put_day_of_week_dhw_keys :
    ∀ v, sch_put_day_of_week_dhw v = true → ∀ k ∈ allKeys v, k ∈ putScheduleKeys := by
  intro v hv
  cases v <;> simp_all [sch_put_day_of_week_dhw]
  case obj kvs =>
    refine checkDict_obj_keys putScheduleKeys ?_ ?_ hv
    · intro r hr
      rcases List.mem_cons.mp hr with h | h
      · subst h; decide
      · rcases List.mem_singleton.mp h with rfl; decide
    · intro r hr w hw
      rcases List.mem_cons.mp hr with h | h
      · subst h; exact keys_in_of_allKeys_nil (allKeys_isDayIndexVal hw)
      · rcases List.mem_singleton.mp h with rfl
        exact allKeys_isListOf sch_put_switchpoint_dhw_keys w hw

theorem sch_put_day_of_week_zone_keys :
    ∀ v, sch_put_day_of_week_zone v = true → ∀ k ∈ allKeys v, k ∈ putScheduleKeys := by
  intro v hv
  cases v <;> simp_all [sch_put_day_of_week_zone]
  case obj kvs =>
    refine checkDict_obj_keys putScheduleKeys ?_ ?_ hv
    · intro r hr
      rcases List.mem_cons.mp hr with h | h
      · subst h; decide
      · rcases List.mem_singleton.mp h with rfl; decide
    · intro r hr w hw
      rcases List.mem_cons.mp hr with h | h
      · subst h; exact keys_in_of_allKeys_nil (allKeys_isDayIndexVal hw)
      · rcases List.mem_singleton.mp h with rfl
        exact allKeys_isListOf sch_put_switchpoint_zone_keys w hw

theorem sch_put_schedule_keys :
    ∀ v, sch_put_schedule v = true → ∀ k ∈ allKeys v, k ∈ putScheduleKeys := by
  intro v hv
  rw [sch_put_schedule, Bool.or_eq_true] at hv
  rcases hv with hv | hv <;> cases v <;> simp_all [sch_put_schedule_dhw, sch_put_schedule_zone]
  case inl.obj kvs =>
    refine checkDict_obj_keys putScheduleKeys ?_ ?_ hv
    · intro r hr
      rcases List.mem_singleton.mp hr with rfl; decide
    · intro r hr w hw
      rcases List.mem_singleton.mp hr with rfl
      exact allKeys_isListOf sch_put_day_of_week_dhw_keys w hw
  case inr.obj kvs =>
    refine checkDict_obj_keys putScheduleKeys ?_ ?_ hv
    · intro r hr
      rcases List.mem_singleton.mp hr with rfl; decide
    · intro r hr w hw
      rcases List.mem_singleton.mp hr with rfl
      exact allKeys_isListOf sch_put_day_of_week_zone_keys w hw

/-- C2 (counterexample): the PUT schedule schema does not use Pascal-case
equivalents of all the GET keys.  This concrete zone schedule document is
accepted by SCH_PUT_SCHEDULE yet its setpoint key is the untransformed
heatSetpoint, which is not among the claimed Pascal-case keys; moreover the
same document spelled with the claimed Pascal-case keys is rejected. -/
theorem sch_put_schedule_pascal_counterexample :
    sch_put_schedule (.obj
      [("Dailyschedules", .arr [.obj
        [("Dayofweek", .int 0),
         ("Switchpoints", .arr [.obj
           [("heatSetpoint", .num 20), ("Timeofday", .str "10:00:00")]])]])]) = true
    ∧ "heatSetpoint" ∈ allKeys (.obj
      [("Dailyschedules", .arr [.obj
        [("Dayofweek", .int 0),
         ("Switchpoints", .arr [.obj
           [("heatSetpoint", .num 20), ("Timeofday", .str "10:00:00")]])]])])
    ∧ "heatSetpoint" ∉
        ["DailySchedules", "DayOfWeek", "Switchpoints", "TimeOfDay", "HeatSetpoint", "DhwState"]
    ∧ sch_put_schedule (.obj
      [("DailySchedules", .arr [.obj
        [("DayOfWeek", .int 0),
         ("Switchpoints", .arr [.obj
           [("HeatSetpoint", .num 20), ("TimeOfDay", .str "10:00:00")]])]])]) = false := by
  refine ⟨by decide, by decide, by decide, by decide⟩

/-- C2 (amended): every document accepted by the GET schedule schema uses
only the lower-camel-case keys dailySchedules, dayOfWeek, switchpoints,
timeOfDay, heatSetpoint, dhwState; every document accepted by the PUT
schedule schema uses only the Python capitalize() transforms of those keys
(Dailyschedules, Dayofweek, Switchpoints, Timeofday, Dhwstate) together
with the untransformed heatSetpoint for the zone setpoint field. -/
theorem schedule_schema_keys :
    (∀ v, sch_get_schedule v = true → ∀ k ∈ allKeys v, k ∈ getScheduleKeys)
    ∧ (∀ v, sch_put_schedule v = true → ∀ k ∈ allKeys v, k ∈ putScheduleKeys) :=
  ⟨sch_get_schedule_keys, sch_put_schedule_keys⟩

/-- Witness for schedule_schema_keys at a concrete accepted GET document and
a concrete accepted PUT document. -/
theorem schedule_schema_keys_witness :
    "timeOfDay" ∈ getScheduleKeys ∧ "Timeofday" ∈ putScheduleKeys :=
  ⟨schedule_schema_keys.1 (.obj
      [("dailySchedules", .arr [.obj
        [("dayOfWeek", .arr [.str "Monday"]),
         ("switchpoints", .arr [.obj
           [("heatSetpoint", .num 20), ("timeOfDay", .str "10:00:00")]])]])])
      (by decide) "timeOfDay" (by decide),
   schedule_schema_keys.2 (.obj
      [("Dailyschedules", .arr [.obj
        [("Dayofweek", .int 0),
         ("Switchpoints", .arr [.obj
           [("heatSetpoint", .num 20), ("Timeofday", .str "10:00:00")]])]])])
      (by decide) "Timeofday" (by decide)⟩

/-- C6: a zone switchpoint document with a valid time-of-day is accepted by
the GET zone switchpoint schema, and by the PUT zone switchpoint schema,
exactly when its setpoint lies in the inclusive range 5.0 to 35.0. -/
theorem switchpoint_setpoint_range (q : Rat) (t : String)
    (ht : isTimeHHMM00 t = true) :
    (sch_get_switchpoint_zone
        (.obj [(szHeatSetpoint, .num q), (szTimeOfDay, .str t)]) = true
      ↔ 5 ≤ q ∧ q ≤ 35)
    ∧ (sch_put_switchpoint_zone
        (.obj [(szHeatSetpoint, .num q), (pyCapitalize szTimeOfDay, .str t)]) = true
      ↔ 5 ≤ q ∧ q ≤ 35) := by
  constructor <;>
    simp [sch_get_switchpoint_zone, sch_put_switchpoint_zone, checkDict,
      isSetpointVal, isTimeVal, ht, szHeatSetpoint, szTimeOfDay, pyCapitalize,
      and_assoc]

/-- Witness for switchpoint_setpoint_range: the inclusive lower bound 5.0
passes both schemas at the concrete time string 10:00:00. -/
theorem switchpoint_setpoint_range_witness :
    sch_get_switchpoint_zone
      (.obj [(szHeatSetpoint, .num 5), (szTimeOfDay, .str "10:00:00")]) = true :=
  (switchpoint_setpoint_range 5 "10:00:00" (by decide)).1.mpr (by norm_num)

/-- C7: a system-mode capability entry validates exactly when it matches one
of the two shapes, the two shapes are mutually exclusive, the permanent-only
shape carries no duration fields anywhere, and the permanent-or-temporary
shape requires max-duration, timing-resolution, and a timing mode that is
Duration or Period. -/
theorem allowed_system_mode_shapes :
    (∀ v, sch_allowed_system_mode v = true ↔
        (sch_system_mode_perm v = true ∨ sch_system_mode_temp v = true))
    ∧ (∀ v, ¬(sch_system_mode_perm v = true ∧ sch_system_mode_temp v = true))
    ∧ (∀ v, sch_system_mode_perm v = true →
        "maxDuration" ∉ allKeys v ∧ "timingResolution" ∉ allKeys v ∧
        "timingMode" ∉ allKeys v)
    ∧ (∀ v, sch_system_mode_temp v = true →
        hasKey v szMaxDuration = true ∧ hasKey v szTimingResolution = true ∧
        hasKey v szTimingMode = true ∧
        ∀ kvs, v = .obj kvs → ∀ kv ∈ kvs, kv.1 = szTimingMode →
          kv.2 = .str "Duration" ∨ kv.2 = .str "Period") := by
  refine ⟨fun v => by rw [sch_allowed_system_mode, Bool.or_eq_true], ?_, ?_, ?_⟩
  · rintro v ⟨hp, ht⟩
    cases v <;> simp_all [sch_system_mode_perm, sch_system_mode_temp]
    case obj kvs =>
    rw [checkDict, Bool.and_eq_true] at hp ht
    obtain ⟨hpall, hpreq⟩ := hp
    obtain ⟨htall, _⟩ := ht
    have hpres := List.all_eq_true.mp hpreq szCanBeTemporary (by decide)
    obtain ⟨kv, hkvmem, hkveq⟩ := List.any_eq_true.mp hpres
    have hkv1 : kv.1 = szCanBeTemporary := eq_of_beq hkveq
    have h1 := List.all_eq_true.mp hpall kv hkvmem
    have h2 := List.all_eq_true.mp htall kv hkvmem
    simp only [hkv1] at h1 h2
    simp [szSystemMode, szCanBePermanent, szCanBeTemporary, szMaxDuration,
      szTimingResolution, szTimingMode] at h1 h2
    cases hv : kv.2 <;> simp_all
  · intro v hv
    have hsub : ∀ k ∈ allKeys v, k ∈ [szSystemMode, szCanBePermanent, szCanBeTemporary] := by
      cases v
      case obj kvs =>
        simp only [sch_system_mode_perm] at hv
        refine checkDict_obj_keys _ ?_ ?_ hv
        · intro r hr
          rcases List.mem_cons.mp hr with h | h
          · subst h; decide
          rcases List.mem_cons.mp h with h2 | h2
          · subst h2; decide
          · rcases List.mem_singleton.mp h2 with rfl; decide
        · intro r hr w hw
          refine keys_in_of_allKeys_nil ?_
          rcases List.mem_cons.mp hr with h | h
          · subst h; cases w <;> (try rfl) <;> simp at hw
          rcases List.mem_cons.mp h with h2 | h2
          · subst h2; cases w <;> (try rfl) <;> simp at hw
          · rcases List.mem_singleton.mp h2 with rfl
            cases w <;> (try rfl) <;> simp at hw
      all_goals exact absurd hv (by simp [sch_system_mode_perm])
    refine ⟨fun hmem => ?_, fun hmem => ?_, fun hmem => ?_⟩ <;>
      · have := hsub _ hmem
        simp [szSystemMode, szCanBePermanent, szCanBeTemporary] at this
  · intro v hv
    cases v
    case obj kvs =>
      simp only [sch_system_mode_temp] at hv
      rw [checkDict, Bool.and_eq_true] at hv
      obtain ⟨htall, htreq⟩ := hv
      refine ⟨?_, ?_, ?_, ?_⟩
      · simpa [hasKey] using List.all_eq_true.mp htreq szMaxDuration (by decide)
      · simpa [hasKey] using List.all_eq_true.mp htreq szTimingResolution (by decide)
      · simpa [hasKey] using List.all_eq_true.mp htreq szTimingMode (by decide)
      · intro kvs2 heq kv hkvmem hkv1
        injection heq with heq2
        subst heq2
        have h1 := List.all_eq_true.mp htall kv hkvmem
        simp only [hkv1] at h1
        simp [szSystemMode, szCanBePermanent, szCanBeTemporary, szMaxDuration,
          szTimingResolution, szTimingMode] at h1
        clear htall htreq
        cases hv2 : kv.2 <;> rw [hv2] at h1 <;> simp at h1
        case str s => rcases h1 with h | h <;> simp [h]
    all_goals exact absurd hv (by simp [sch_system_mode_temp])

/-- Witness for allowed_system_mode_shapes at a concrete permanent-only
entry and a concrete permanent-or-temporary entry. -/
theorem allowed_system_mode_shapes_witness :
    "maxDuration" ∉ allKeys (.obj
      [(szSystemMode, .str "Auto"), (szCanBePermanent, .bool true),
       (szCanBeTemporary, .bool false)])
    ∧ hasKey (.obj
      [(szSystemMode, .str "Away"), (szCanBePermanent, .bool true),
       (szCanBeTemporary, .bool true), (szMaxDuration, .str "99.00:00:00"),
       (szTimingResolution, .str "1.00:00:00"), (szTimingMode, .str "Duration")])
      szMaxDuration = true :=
  ⟨(allowed_system_mode_shapes.2.2.1 _ (by decide)).1,
   (allowed_system_mode_shapes.2.2.2 _ (by decide)).1⟩

theorem dictInsert_keys {α : Type} (d : List (String × α)) (k : String) (v : α) :
    (dictInsert d k v).map Prod.fst =
      if d.any (fun kv => kv.1 == k) then d.map Prod.fst
      else d.map Prod.fst ++ [k] := by
  rw [dictInsert]
  cases hc : d.any (fun kv => kv.1 == k) with
  | true =>
    simp only [if_true, List.map_map]
    refine List.map_congr_left ?_
    intro kv _
    by_cases hk : kv.1 = k <;> simp [hk]
  | false => simp

theorem mem_keys_dictInsert {α : Type} (d : List (String × α)) (k : String)
    (v : α) (k' : String) :
    k' ∈ (dictInsert d k v).map Prod.fst ↔ k' = k ∨ k' ∈ d.map Prod.fst := by
  rw [dictInsert_keys]
  cases hc : d.any (fun kv => kv.1 == k) with
  | true =>
    simp only [if_true]
    constructor
    · exact fun hm => Or.inr hm
    · rintro (rfl | hm)
      · obtain ⟨kv, hkv, hbeq⟩ := List.any_eq_true.mp hc
        exact List.mem_map.mpr ⟨kv, hkv, (eq_of_beq hbeq).symm ▸ rfl⟩
      · exact hm
  | false =>
    simp only [Bool.false_eq_true, if_false, List.mem_append, List.mem_singleton]
    tauto

theorem dictInsert_keys_nodup {α : Type} {d : List (String × α)}
    (h : (d.map Prod.fst).Nodup) (k : String) (v : α) :
    ((dictInsert d k v).map Prod.fst).Nodup := by
  rw [dictInsert_keys]
  cases hc : d.any (fun kv => kv.1 == k) with
  | true => simpa using h
  | false =>
    simp only [Bool.false_eq_true, if_false]
    rw [List.nodup_append]
    refine ⟨h, List.nodup_singleton k, ?_⟩
    intro x hx hx1
    rcases List.mem_singleton.mp hx1 with rfl
    rw [← Bool.not_eq_true, List.any_eq_true] at hc
    push_neg at hc
    obtain ⟨kv, hkv, rfl⟩ := List.mem_map.mp hx
    exact hc kv hkv (beq_self_eq_true _)

theorem insertZones_spec (zs : List Zone)
    (acc : List Zone × List (String × Zone) × List (String × Zone))
    (hnd : (acc.2.2.map Prod.fst).Nodup)
    (hmem : ∀ z ∈ acc.1, z.zoneId ∈ acc.2.2.map Prod.fst) :
    (insertZones zs acc).1.length = acc.1.length + zs.length
    ∧ ((insertZones zs acc).2.2.map Prod.fst).Nodup
    ∧ ∀ z ∈ (insertZones zs acc).1,
        z.zoneId ∈ (insertZones zs acc).2.2.map Prod.fst := by
  induction zs generalizing acc with
  | nil =>
    refine ⟨by simp [insertZones], by simpa [insertZones] using hnd,
      by simpa [insertZones] using hmem⟩
  | cons z rest ih =>
    rw [insertZones]
    obtain ⟨acc1, accName, accId⟩ := acc
    have hnd2 : (((dictInsert accId z.zoneId z).map Prod.fst)).Nodup :=
      dictInsert_keys_nodup hnd z.zoneId z
    have hmem2 : ∀ w ∈ acc1 ++ [z],
        w.zoneId ∈ (dictInsert accId z.zoneId z).map Prod.fst := by
      intro w hw
      rcases List.mem_append.mp hw with hw | hw
      · exact (mem_keys_dictInsert accId z.zoneId z w.zoneId).mpr
          (Or.inr (hmem w hw))
      · rw [List.mem_singleton.mp hw]
        exact (mem_keys_dictInsert accId z.zoneId z z.zoneId).mpr (Or.inl rfl)
    have := ih (acc1 ++ [z], dictInsert accName z.name z,
      dictInsert accId z.zoneId z) hnd2 hmem2
    refine ⟨?_, this.2.1, this.2.2⟩
    rw [this.1]
    simp [Nat.add_assoc, Nat.add_comm 1 rest.length]

/-- C4: constructing a ControlSystem from a config payload yields a zone
list of the same length as the payload zones list, and every zone
identifier occurs exactly once among the keys of zones_by_id. -/
theorem controlsystem_init_zone_index (config : TcsConfig) (cs : ControlSystem)
    (h : mkControlSystem config = .ok cs) :
    cs._zones.length = config.zones.length
    ∧ ∀ z ∈ cs._zones, (cs.zones_by_id.map Prod.fst).count z.zoneId = 1 := by
  rw [mkControlSystem] at h
  split at h
  · exact absurd h (by simp)
  split at h
  · exact absurd h (by simp)
  rw [Except.ok.injEq] at h
  have hspec := insertZones_spec config.zones ([], [], []) (by simp) (by simp)
  constructor
  · rw [← h]; simpa using hspec.1
  · intro z hz
    rw [← h] at hz ⊢
    exact List.count_eq_one_of_mem hspec.2.1 (hspec.2.2 z hz)

/-- Witness for controlsystem_init_zone_index at a concrete two-zone
config. -/
theorem controlsystem_init_zone_index_witness :
    (exTwoZoneSystem.zones_by_id.map Prod.fst).count "3432576" = 1 := by
  have h := controlsystem_init_zone_index exTwoZoneConfig exTwoZoneSystem rfl
  simpa using h.2 ⟨"3432576", "Lounge", ⟨true, 17⟩, ⟨21⟩⟩ (List.Mem.head _)

/-- C5: a config payload with the top-level system identifier absent makes
construction fail with a configuration error; no ControlSystem is returned. -/
theorem controlsystem_init_missing_id (config : TcsConfig)
    (h : config.systemId = none) :
    mkControlSystem config = .error .configError
    ∧ ∀ cs, mkControlSystem config ≠ .ok cs := by
  have : mkControlSystem config = .error .configError := by
    rw [mkControlSystem, h]
  exact ⟨this, fun cs hcs => by rw [this] at hcs; exact Except.noConfusion hcs⟩

/-- Witness for controlsystem_init_missing_id at a concrete config with no
system identifier. -/
theorem controlsystem_init_missing_id_witness :
    mkControlSystem { systemId := none, zones := [], dhw := none } =
      .error .configError :=
  (controlsystem_init_missing_id
    { systemId := none, zones := [], dhw := none } rfl).1

/-- C1: with no until time the mode-change body is SystemMode plus a null
TimeUntil and Permanent true; with an until time it is Permanent false with
TimeUntil the formatted timestamp; and every named convenience operation
delegates to the generic one with its fixed mode string. -/
theorem set_status_body (mode : String) (u : PyDateTime)
    (ut : Option PyDateTime) :
    set_status_data mode none =
      .obj [("SystemMode", .str mode), ("TimeUntil", .null),
            ("Permanent", .bool true)]
    ∧ set_status_data mode (some u) =
      .obj [("SystemMode", .str mode), ("TimeUntil", .str (apiStrftime u)),
            ("Permanent", .bool false)]
    ∧ set_status_data_generic mode ut = set_status_data mode ut
    ∧ set_status_normal_data = set_status_data "Auto" none
    ∧ set_status_reset_data = set_status_data "AutoWithReset" none
    ∧ set_status_custom_data ut = set_status_data "Custom" ut
    ∧ set_status_eco_data ut = set_status_data "AutoWithEco" ut
    ∧ set_status_away_data ut = set_status_data "Away" ut
    ∧ set_status_dayoff_data ut = set_status_data "DayOff" ut
    ∧ set_status_heatingoff_data ut = set_status_data "HeatingOff" ut :=
  ⟨rfl, rfl, rfl, rfl, rfl, rfl, rfl, rfl, rfl, rfl⟩

/-- C3: after the status refresh, temperatures puts the hot-water entry
first when present (kind DOMESTIC_HOT_WATER, empty name, empty-string
setpoint) followed by the zones in construction order, and each zone entry
carries kind EMEA_ZONE, the zone identifier, name and target setpoint, with
a temp that is null exactly when the zone reports unavailable. -/
theorem temperatures_report (cs : ControlSystem) :
    (∀ hw, cs.hotwater = some hw →
      temperatures cs =
        { thermostat := "DOMESTIC_HOT_WATER", id := hw.dhwId, name := "",
          temp := some hw.temperatureStatus.temperature, setpoint := .str "" }
          :: cs._zones.map zoneTempEntry)
    ∧ (cs.hotwater = none → temperatures cs = cs._zones.map zoneTempEntry)
    ∧ ∀ z : Zone,
        (zoneTempEntry z).thermostat = "EMEA_ZONE"
        ∧ (zoneTempEntry z).id = z.zoneId
        ∧ (zoneTempEntry z).name = z.name
        ∧ (zoneTempEntry z).setpoint = .num z.setpointStatus.targetHeatTemperature
        ∧ ((zoneTempEntry z).temp = none ↔ z.temperatureStatus.isAvailable = false) := by
  refine ⟨?_, ?_, ?_⟩
  · intro hw hhw
    rw [temperatures, hhw]
    rfl
  · intro hhw
    rw [temperatures, hhw]
    rfl
  · intro z
    rw [zoneTempEntry]
    cases hav : z.temperatureStatus.isAvailable <;> simp [hav]

/-- Witness for temperatures_report on the spec scenario: two zones Lounge
and Bedroom plus a DHW block give a three-entry report with the DHW entry
first. -/
theorem temperatures_report_witness :
    temperatures
      { systemId := "3432522",
        _zones := [⟨"3432576", "Lounge", ⟨true, 17⟩, ⟨21⟩⟩,
                   ⟨"3432577", "Bedroom", ⟨false, 18⟩, ⟨16⟩⟩],
        zones := [("Lounge", ⟨"3432576", "Lounge", ⟨true, 17⟩, ⟨21⟩⟩),
                  ("Bedroom", ⟨"3432577", "Bedroom", ⟨false, 18⟩, ⟨16⟩⟩)],
        zones_by_id := [("3432576", ⟨"3432576", "Lounge", ⟨true, 17⟩, ⟨21⟩⟩),
                        ("3432577", ⟨"3432577", "Bedroom", ⟨false, 18⟩, ⟨16⟩⟩)],
        hotwater := some ⟨"3433536", ⟨true, 51⟩⟩ } =
      [{ thermostat := "DOMESTIC_HOT_WATER", id := "3433536", name := "",
         temp := some 51, setpoint := .str "" },
       { thermostat := "EMEA_ZONE", id := "3432576", name := "Lounge",
         temp := some 17, setpoint := .num 21 },
       { thermostat := "EMEA_ZONE", id := "3432577", name := "Bedroom",
         temp := none, setpoint := .num 16 }] := by
  rw [(temperatures_report _).1 ⟨"3433536", ⟨true, 51⟩⟩ rfl]
  rfl

/-- C8: restoring a backup whose entries are all resolvable up to the first
entry matching neither the hot-water unit nor any zone submits exactly the
schedules before that entry, in order, raises a lookup failure naming it,
and applies nothing after it. -/
theorem restore_fail_fast (cs : ControlSystem) (pre post : List RestoreEntry)
    (bad : RestoreEntry)
    (hpre : ∀ e ∈ pre, matchesEntity cs e.zid = true)
    (hbad : matchesEntity cs bad.zid = false) :
    zone_schedules_restore cs (pre ++ bad :: post) =
      (pre.map (fun e => (e.zid, e.schedule)), some (.lookupError bad.zid)) := by
  induction pre with
  | nil =>
    rw [List.nil_append, zone_schedules_restore]
    rw [matchesEntity, Bool.or_eq_false_iff] at hbad
    rw [if_neg (by simp [hbad.1]), if_neg (by simp [hbad.2])]
    rfl
  | cons e pre ih =>
    have he := hpre e (List.mem_cons_self e pre)
    have hp : ∀ x ∈ pre, matchesEntity cs x.zid = true :=
      fun x hx => hpre x (List.mem_cons_of_mem e hx)
    rw [List.cons_append, zone_schedules_restore]
    rw [matchesEntity, Bool.or_eq_true] at he
    rcases he with he | he
    · rw [if_pos he, ih hp]
      rfl
    · by_cases hhw : (match cs.hotwater with
        | some hw => hw.zoneId == e.zid
        | none => false) = true
      · rw [if_pos hhw, ih hp]
        rfl
      · rw [if_neg hhw, if_pos he, ih hp]
        rfl

/-- Witness for restore_fail_fast: on the two-zone system, a backup with
one resolvable entry, then an unknown identifier, then another resolvable
entry applies only the first and stops with the lookup error. -/
theorem restore_fail_fast_witness :
    zone_schedules_restore exTwoZoneSystem
      [⟨"3432576", "Lounge", .null⟩, ⟨"9999999", "Ghost", .null⟩,
       ⟨"3432577", "Bedroom", .null⟩] =
      ([("3432576", .null)], some (.lookupError "9999999")) := by
  have h := restore_fail_fast exTwoZoneSystem
    [⟨"3432576", "Lounge", .null⟩] [⟨"3432577", "Bedroom", .null⟩]
    ⟨"9999999", "Ghost", .null⟩
    (by intro e he
        rcases List.mem_singleton.mp he with rfl
        rfl)
    rfl
  exact h

theorem pollLoop_some (resp : Nat → PollResponse) (fuel : Nat) :
    ∀ i n out, pollLoop resp i fuel = some (n, out) →
      i ≤ n
      ∧ (out = .succeeded → resp n = .state "Succeeded")
      ∧ (out = .transportFailure → resp n = .transportError)
      ∧ ∀ j, i ≤ j → j < n → ∃ s, resp j = .state s ∧ s ≠ "Succeeded" := by
  induction fuel with
  | zero => intro i n out h; exact absurd h (by simp [pollLoop])
  | succ fuel ih =>
    intro i n out h
    rw [pollLoop] at h
    cases hr : resp i with
    | transportError =>
      rw [hr] at h
      obtain ⟨rfl, rfl⟩ := Prod.ext_iff.mp (Option.some.inj h)
      refine ⟨Nat.le_refl i, by simp, fun _ => hr, ?_⟩
      intro j hij hji
      exact absurd (Nat.lt_of_le_of_lt hij hji) (Nat.lt_irrefl i)
    | state s =>
      rw [hr] at h
      have h2 : (if s = "Succeeded" then some (i, PollOutcome.succeeded)
                 else pollLoop resp (i + 1) fuel) = some (n, out) := h
      by_cases hs : s = "Succeeded"
      · rw [if_pos hs] at h2
        obtain ⟨rfl, rfl⟩ := Prod.ext_iff.mp (Option.some.inj h2)
        refine ⟨Nat.le_refl i, fun _ => hs ▸ hr, by simp, ?_⟩
        intro j hij hji
        exact absurd (Nat.lt_of_le_of_lt hij hji) (Nat.lt_irrefl i)
      · rw [if_neg hs] at h2
        obtain ⟨hin, hsu, htr, hmid⟩ := ih (i + 1) n out h2
        refine ⟨Nat.le_trans (Nat.le_succ i) hin, hsu, htr, ?_⟩
        intro j hij hji
        rcases Nat.eq_or_lt_of_le hij with rfl | hij2
        · exact ⟨s, hr, hs⟩
        · exact hmid j hij2 hji

/-- C9: a legacy mutating write returns only when a poll of the task status
reports Succeeded or a check raises a transport error; every earlier check
saw a non-Succeeded state string with one one-second sleep each, and when
every check reports a non-Succeeded state and never errors, the loop never
returns however long it runs. -/
theorem legacy_write_polls_until_succeeded (resp : Nat → PollResponse) :
    (∀ fuel n, pollLoop resp 0 fuel = some (n, .succeeded) →
      resp n = .state "Succeeded"
      ∧ ∀ j, j < n → ∃ s, resp j = .state s ∧ s ≠ "Succeeded")
    ∧ (∀ fuel n, pollLoop resp 0 fuel = some (n, .transportFailure) →
      resp n = .transportError
      ∧ ∀ j, j < n → ∃ s, resp j = .state s ∧ s ≠ "Succeeded")
    ∧ ((∀ n s, resp n = .state s → s ≠ "Succeeded") →
       (∀ n, resp n ≠ .transportError) →
       ∀ fuel, pollLoop resp 0 fuel = none) := by
  refine ⟨?_, ?_, ?_⟩
  · intro fuel n h
    obtain ⟨_, hsu, _, hmid⟩ := pollLoop_some resp fuel 0 n .succeeded h
    exact ⟨hsu rfl, fun j hj => hmid j (Nat.zero_le j) hj⟩
  · intro fuel n h
    obtain ⟨_, _, htr, hmid⟩ := pollLoop_some resp fuel 0 n .transportFailure h
    exact ⟨htr rfl, fun j hj => hmid j (Nat.zero_le j) hj⟩
  · intro hns hne fuel
    suffices hgen : ∀ fuel i, pollLoop resp i fuel = none from hgen fuel 0
    intro fuel
    induction fuel with
    | zero => intro i; rfl
    | succ fuel ih =>
      intro i
      rw [pollLoop]
      cases hr : resp i with
      | transportError => exact absurd hr (hne i)
      | state s =>
        show (if s = "Succeeded" then some (i, PollOutcome.succeeded)
              else pollLoop resp (i + 1) fuel) = none
        rw [if_neg (hns i s hr)]
        exact ih (i + 1)

/-- Witness for legacy_write_polls_until_succeeded: a task that reports
Working twice and then Succeeded is re-checked until the third poll. -/
theorem legacy_write_polls_until_succeeded_witness :
    (fun n => if n = 2 then PollResponse.state "Succeeded"
              else PollResponse.state "Working") 2 = .state "Succeeded" :=
  ((legacy_write_polls_until_succeeded
      (fun n => if n = 2 then PollResponse.state "Succeeded"
                else PollResponse.state "Working")).1
    5 2 (by decide)).1

/-- C10: the legacy system-mode body formats QuickActionNextTime from the
until date with the time of day truncated to midnight, so two until values
on the same date with different hours, minutes or seconds build identical
request bodies; zone and DHW overrides instead format NextTime with the
full %H:%M:%S time of day. -/
theorem legacy_status_truncates_until (status : String) (temperature : Rat)
    (y mo d h1 mi1 s1 h2 mi2 s2 : Nat) :
    legacy_set_status_data status (some ⟨y, mo, d, h1, mi1, s1⟩) =
      legacy_set_status_data status (some ⟨y, mo, d, h2, mi2, s2⟩)
    ∧ (legacy_set_status_data status (some ⟨y, mo, d, h1, mi1, s1⟩)).quickActionNextTime =
      some (pad4 y ++ "-" ++ pad2 mo ++ "-" ++ pad2 d ++ "T00:00:00Z")
    ∧ (set_temperature_data temperature (some ⟨y, mo, d, h1, mi1, s1⟩)).nextTime =
      some (pad4 y ++ "-" ++ pad2 mo ++ "-" ++ pad2 d ++ "T" ++ pad2 h1 ++ ":" ++
        pad2 mi1 ++ ":" ++ pad2 s1 ++ "Z")
    ∧ dhw_next_time (some ⟨y, mo, d, h1, mi1, s1⟩) =
      some (pad4 y ++ "-" ++ pad2 mo ++ "-" ++ pad2 d ++ "T" ++ pad2 h1 ++ ":" ++
        pad2 mi1 ++ ":" ++ pad2 s1 ++ "Z")
    ∧ (legacy_set_status_data "Away" (some ⟨2023, 5, 1, 14, 30, 45⟩)).quickActionNextTime =
      some "2023-05-01T00:00:00Z"
    ∧ (set_temperature_data 21 (some ⟨2023, 5, 1, 14, 30, 45⟩)).nextTime =
      some "2023-05-01T14:30:45Z" := by
  refine ⟨rfl, rfl, ?_, ?_, by decide, by decide⟩ <;>
    simp [set_temperature_data, dhw_next_time, strftime_full, strftime_date,
      String.append_assoc]

end Evohome
